import Mathlib

/-!
Verification of the adaptive hallucination-detection pipeline
(`backend/advanced_detection/`): a shallow embedding of the
meta-classifier risk-fusion layer (`meta_classifier.py`), the semantic
entropy detector (`semantic_entropy.py`) and the claim-level NLI
detector (`claim_nli.py`), together with theorems about the embedded
definitions.  Floating-point values are modelled as rationals (exact
arithmetic) except for the Shannon-entropy computation, which uses the
real logarithm.  External ML models (the NLI classifier, the sentence
tokenizer, the trained calibrator, HDBSCAN's raw label output) are
modelled as explicit function/data parameters.
-/

namespace LLMProxy

/-! ### meta_classifier.py : feature vector and risk fusion -/

/-- The feature dictionary produced by `MetaClassifier.extract_features`:
ten named scalar features (booleans encoded as floats). -/
structure Features where
  semantic_entropy : ℚ
  num_clusters : ℚ
  consensus_strength : ℚ
  judge_score : ℚ
  claim_support_rate : ℚ
  has_contradiction : ℚ
  self_similarity : ℚ
  num_contradictions : ℚ
  answer_length : ℚ
  citation_density : ℚ
  deriving Repr, DecidableEq

/-- `self.feature_names` as set in `MetaClassifier.__init__`. -/
def featureNames : List String :=
  ["semantic_entropy", "num_clusters", "consensus_strength", "judge_score",
   "claim_support_rate", "has_contradiction", "self_similarity",
   "num_contradictions", "answer_length", "citation_density"]

/-- `features.get(name, 0.5)`: dictionary lookup on the feature dict by
feature name, `none` for a name that is not a key. -/
def featLookup (f : Features) (name : String) : Option ℚ :=
  if name = "semantic_entropy" then some f.semantic_entropy
  else if name = "num_clusters" then some f.num_clusters
  else if name = "consensus_strength" then some f.consensus_strength
  else if name = "judge_score" then some f.judge_score
  else if name = "claim_support_rate" then some f.claim_support_rate
  else if name = "has_contradiction" then some f.has_contradiction
  else if name = "self_similarity" then some f.self_similarity
  else if name = "num_contradictions" then some f.num_contradictions
  else if name = "answer_length" then some f.answer_length
  else if name = "citation_density" then some f.citation_density
  else none

/-- Python's `round(x, 4)` (round half to even at the 4th decimal). -/
def pyRound4 (q : ℚ) : ℚ :=
  let x : ℚ := q * 10000
  let f : ℤ := ⌊x⌋
  let r : ℚ := x - f
  let n : ℤ :=
    if r < 1/2 then f
    else if 1/2 < r then f + 1
    else if f % 2 = 0 then f else f + 1
  (n : ℚ) / 10000

/-- `MetaClassifier._get_risk_level`. -/
def getRiskLevel (prob : ℚ) : String :=
  if prob < 2/10 then "safe"
  else if prob < 4/10 then "low"
  else if prob < 6/10 then "medium"
  else if prob < 8/10 then "high"
  else "critical"

/-- `MetaClassifier._get_action`. -/
def getAction (prob : ℚ) : String :=
  if prob < 2/10 then "show"
  else if prob < 6/10 then "show_with_warning"
  else "block_and_regenerate"

/-- Ordinal rank of a risk-level string (safe < low < medium < high <
critical), used to state monotonicity. -/
def levelRank (s : String) : ℕ :=
  if s = "safe" then 0
  else if s = "low" then 1
  else if s = "medium" then 2
  else if s = "high" then 3
  else 4

/-- `MetaClassifier._heuristic_score`: fixed signed linear combination
around the 0.5 baseline, clipped to [0,1].  Only the six weighted
features enter the sum. -/
def heuristicScore (f : Features) : ℚ :=
  let score : ℚ := 1/2
    + (25/100) * f.semantic_entropy
    + (-30/100) * f.judge_score
    + (-20/100) * f.claim_support_rate
    + (15/100) * f.has_contradiction
    + (-10/100) * f.self_similarity
    + (10/100) * f.num_contradictions
  max 0 (min 1 score)

/-- `MetaClassifier._explain_prediction`: deterministic rule-based
listing of crossed feature thresholds (the `risk_prob` argument is
accepted but unused, as in the source). -/
def explainPrediction (f : Features) (riskProb : ℚ) : String :=
  let _ := riskProb
  let issues : List String :=
    (if f.semantic_entropy > 1/2 then ["high uncertainty across samples"] else [])
    ++ (if f.judge_score < 1/2 then ["low factuality score"] else [])
    ++ (if f.claim_support_rate < 6/10 then ["many unsupported claims"] else [])
    ++ (if f.has_contradiction > 0 then ["contradictions detected"] else [])
    ++ (if f.self_similarity < 7/10 then ["inconsistent answers"] else [])
  if issues = [] then "All checks passed - response appears reliable"
  else "Risk factors: " ++ String.intercalate ", " issues

/-- The mutable state of a `MetaClassifier` instance: the current
feature-name list, the optional loaded/trained calibrator (modelled as a
function from the feature row to a probability), and the
`use_heuristic` flag. -/
structure MCState where
  feature_names : List String
  calibrator : Option (List ℚ → ℚ)
  use_heuristic : Bool

/-- `MetaClassifier.__init__` with no model path: default feature names,
no calibrator, heuristic scoring. -/
def initMC : MCState :=
  { feature_names := featureNames, calibrator := none, use_heuristic := true }

/-- The payload that `save_model` pickles and `load_model` unpickles:
the calibrator plus its expected feature-name ordering. -/
structure StoredModel where
  calibrator : List ℚ → ℚ
  feature_names : List String

/-- `MetaClassifier.load_model`: unconditionally installs the stored
calibrator and feature-name list and clears `use_heuristic`.  No check
of any kind is performed against the classifier's current feature
schema. -/
def loadModel (st : MCState) (m : StoredModel) : MCState :=
  let _ := st
  { feature_names := m.feature_names, calibrator := some m.calibrator,
    use_heuristic := false }

/-- The feature row `X` built at the top of `MetaClassifier.predict`:
`[features.get(name, 0.5) for name in self.feature_names]`. -/
def buildX (st : MCState) (f : Features) : List ℚ :=
  st.feature_names.map (fun name => (featLookup f name).getD (1/2))

/-- Result record of `MetaClassifier.predict` (the rounded echo of the
feature dict is omitted; it is a display copy of the input). -/
structure PredictOut where
  risk_probability : ℚ
  risk_level : String
  explanation : String
  action : String
  deriving Repr, DecidableEq

/-- `MetaClassifier.predict`: heuristic score when `use_heuristic` is
set, otherwise the calibrator applied to the feature row (a state with
`use_heuristic = false` always carries a calibrator in the source; the
unreachable `none` case yields 0). -/
def predictMC (st : MCState) (f : Features) : PredictOut :=
  let X := buildX st f
  let riskProb : ℚ :=
    if st.use_heuristic then heuristicScore f
    else match st.calibrator with
      | some g => g X
      | none => 0
  { risk_probability := pyRound4 riskProb
    risk_level := getRiskLevel riskProb
    explanation := explainPrediction f riskProb
    action := getAction riskProb }

/-! ### semantic_entropy.py : clustering post-processing and entropy -/

/-- Tail of `SemanticEntropyDetector._cluster_embeddings`: the raw HDBSCAN
label vector (label `-1` = noise) is replaced by an all-zeros single
cluster when every point is noise. -/
def postprocessClusters (labels : List ℤ) : List ℤ :=
  if labels.all (fun c => c = -1) then List.replicate labels.length 0 else labels

/-- `SemanticEntropyDetector._cluster_embeddings`: with fewer than 2
embeddings return the single label `[0]`; otherwise post-process the raw
clusterer output (HDBSCAN itself is an external capability, modelled by
its label vector `hdbscanLabels`). -/
def clusterEmbeddings (numEmbeddings : ℕ) (hdbscanLabels : List ℤ) : List ℤ :=
  if numEmbeddings < 2 then [0] else postprocessClusters hdbscanLabels

/-- `SemanticEntropyDetector._calculate_entropy`: Shannon entropy
`-Σ p log p` over the cluster-size distribution, where noise points
(label `-1`) are dropped both from the counts and from the
normalizing total. -/
noncomputable def calcEntropy (clusters : List ℤ) : ℝ :=
  if clusters = [] then 0
  else
    let nonNoise := clusters.filter (fun c => c ≠ -1)
    if nonNoise = [] then 0
    else
      let total : ℕ := nonNoise.length
      -- the source guards each term with `if p > 0`; every counted label
      -- occurs at least once, so the guard is always true
      Neg.neg ((nonNoise.dedup.map (fun c =>
          let p : ℝ := (nonNoise.count c : ℝ) / (total : ℝ)
          p * Real.log p)).sum)

/-- `max(Counter(clusters).values())` in `SemanticEntropyDetector.detect`
(0 for the empty list): the largest label group, the noise label `-1`
counting as a group. -/
def maxClusterSize (clusters : List ℤ) : ℕ :=
  ((clusters.dedup.map (fun c => clusters.count c)).foldr max 0)

/-- `consensus_strength = max_cluster_size / len(samples)` in
`SemanticEntropyDetector.detect` (0 when there are no samples; the label
list has one label per sample). -/
def consensusStrength (clusters : List ℤ) : ℚ :=
  if clusters = [] then 0 else (maxClusterSize clusters : ℚ) / clusters.length

/-- `num_clusters = len(set(clusters)) - (1 if -1 in clusters else 0)` in
`SemanticEntropyDetector.detect`. -/
def numClustersOf (clusters : List ℤ) : ℕ :=
  clusters.dedup.length - (if (-1 : ℤ) ∈ clusters then 1 else 0)

/-- Modelled from the spec (for comparison with the code's
`consensusStrength`): "size of the largest cluster / total samples"
where "noise-labeled points do not form a cluster", i.e. the maximum is
taken over non-noise labels only. -/
def specMaxNonNoiseSize (clusters : List ℤ) : ℕ :=
  (((clusters.filter (fun c => c ≠ -1)).dedup.map
     (fun c => clusters.count c)).foldr max 0)

/-- Modelled from the spec: consensus strength with noise excluded from
the maximum (see `specMaxNonNoiseSize`). -/
def specConsensusStrength (clusters : List ℤ) : ℚ :=
  if clusters = [] then 0 else (specMaxNonNoiseSize clusters : ℚ) / clusters.length

/-- `SemanticEntropyDetector.adaptive_sampling`: number of additional
samples requested given the initial entropy, the initial sample count
and the cap `max_k` (Python ints; the subtraction may be negative). -/
def adaptiveSampling (initialEntropy : ℚ) (initialK maxK : ℤ) : ℤ :=
  if initialEntropy < 4/10 ∨ initialEntropy > 6/10 then 0
  else min (maxK - initialK) 5

/-! ### claim_nli.py : claim extraction and entailment checking -/

/-- `str.strip()` on a character list: whitespace removed from both
ends. -/
def pyStrip (l : List Char) : List Char :=
  ((l.dropWhile Char.isWhitespace).reverse.dropWhile Char.isWhitespace).reverse

/-- `str.lower()` on a character list. -/
def lowerL (l : List Char) : List Char := l.map Char.toLower

/-- `sentence.strip().endswith('?')`. -/
def endsWithQmark (l : List Char) : Bool := (pyStrip l).getLast? = some '?'

/-- `str.split()` with no separator: maximal runs of non-whitespace
characters (the accumulator holds the current run, reversed). -/
def splitWSAux : List Char → List Char → List (List Char)
  | [], acc => if acc.isEmpty then [] else [acc.reverse]
  | c :: rest, acc =>
    if c.isWhitespace then
      if acc.isEmpty then splitWSAux rest [] else acc.reverse :: splitWSAux rest []
    else splitWSAux rest (c :: acc)

/-- `len(sentence.split())`. -/
def countWords (l : List Char) : ℕ := (splitWSAux l []).length

/-- The meta/discourse phrases of `ClaimNLIDetector._is_factual_claim`. -/
def metaPhrases : List String :=
  ["let me", "i will", "here is", "here are",
   "in summary", "in conclusion", "to summarize"]

/-- Python's substring test `needle in hay` on character lists. -/
def containsSub (needle : List Char) : List Char → Bool
  | [] => needle.isEmpty
  | h :: t => needle.isPrefixOf (h :: t) || containsSub needle t

/-- `any(phrase in sentence.lower() for phrase in meta_phrases)`. -/
def containsMeta (l : List Char) : Bool :=
  metaPhrases.any (fun p => containsSub p.toList (lowerL l))

/-- Boolean search for the entity regex
`[A-Z][a-z]+(?:\s+[A-Z][a-z]+)*`: since the group may repeat zero
times, the search succeeds exactly when some uppercase letter is
immediately followed by a lowercase letter. -/
def hasEntity (l : List Char) : Bool :=
  (l.zip l.tail).any (fun p => p.1.isUpper && p.2.isLower)

/-- Boolean search for `\d+`. -/
def hasNumber (l : List Char) : Bool := l.any Char.isDigit

/-- A regex word character `\w` = `[A-Za-z0-9_]`. -/
def isWordChar (c : Char) : Bool := c.isAlphanum || c = '_'

/-- Match of `\d{4}\b` at the head of the list, given that the `\b`
before the first digit already held. -/
def fourDigitAt (prevOk : Bool) (l : List Char) : Bool :=
  match l with
  | d1 :: d2 :: d3 :: d4 :: rest =>
    prevOk && d1.isDigit && d2.isDigit && d3.isDigit && d4.isDigit &&
      (match rest with | [] => true | c :: _ => !(isWordChar c))
  | _ => false

/-- Scanner for `\b\d{4}\b` anywhere in the list (`prev` is the
character before the current position, `none` at the start). -/
def hasFourDigit : Option Char → List Char → Bool
  | _, [] => false
  | prev, c :: rest =>
    fourDigitAt (match prev with | none => true | some p => !(isWordChar p)) (c :: rest)
      || hasFourDigit (some c) rest

/-- The month alternatives of the date regex in
`ClaimNLIDetector._is_factual_claim`. -/
def monthNames : List String :=
  ["January", "February", "March", "April", "May", "June", "July",
   "August", "September", "October", "November", "December"]

/-- Match of `(month)\b` at the head of the list, given that the `\b`
before the month already held. -/
def monthAt (prevOk : Bool) (l : List Char) : Bool :=
  monthNames.any (fun m =>
    let ml := m.toList
    prevOk && (l.take ml.length == ml) &&
      (match l.drop ml.length with | [] => true | c :: _ => !(isWordChar c)))

/-- Scanner for `\b(January|…|December)\b` anywhere in the list. -/
def hasMonth : Option Char → List Char → Bool
  | _, [] => false
  | prev, c :: rest =>
    monthAt (match prev with | none => true | some p => !(isWordChar p)) (c :: rest)
      || hasMonth (some c) rest

/-- Boolean search for the date regex
`\b\d{4}\b|\b(January|…|December)\b`. -/
def hasDate (l : List Char) : Bool := hasFourDigit none l || hasMonth none l

/-- `ClaimNLIDetector._is_factual_claim`: a sentence is kept as a claim
iff it is not a question, has at least 4 words, carries no
meta/discourse phrase, and contains an entity-regex match, a digit, or a
date token. -/
def isFactualClaim (s : String) : Bool :=
  let l := s.toList
  if endsWithQmark l then false
  else if countWords l < 4 then false
  else if containsMeta l then false
  else hasEntity l || hasNumber l || hasDate l

/-- `ClaimNLIDetector._extract_claims_rule_based`: sentence-tokenize the
answer (the NLTK tokenizer is an external capability, passed as `tok`),
keep the factual claims, strip each. -/
def extractClaimsRuleBased (tok : String → List String) (answer : String) :
    List String :=
  ((tok answer).filter isFactualClaim).map (fun s => String.mk (pyStrip s.toList))

/-- Modelled from the spec's words, for comparison with the code's
`hasEntity`: a capitalized **multi-word** span, i.e. an occurrence of
`[A-Z][a-z]+\s+[A-Z][a-z]+` (two capitalized words separated only by
whitespace).  Helper: after at least one whitespace character, skip
further whitespace and require an uppercase letter followed by a
lowercase letter. -/
def multiCapSpace : List Char → Bool
  | [] => false
  | c :: rest =>
    if c.isWhitespace then multiCapSpace rest
    else c.isUpper && (match rest with | b :: _ => b.isLower | [] => false)

/-- Helper for `hasMultiCapSpan`: after `[A-Z][a-z]`, consume further
lowercase letters, then require at least one whitespace character and a
second capitalized word. -/
def multiCapAfterLower : List Char → Bool
  | [] => false
  | a :: rest =>
    if a.isLower then multiCapAfterLower rest
    else if a.isWhitespace then multiCapSpace rest
    else false

/-- Modelled from the spec's words: boolean search for a capitalized
multi-word span `[A-Z][a-z]+\s+[A-Z][a-z]+`. -/
def hasMultiCapSpan : List Char → Bool
  | [] => false
  | c :: rest =>
    (c.isUpper &&
       (match rest with
        | b :: brest => b.isLower && multiCapAfterLower brest
        | [] => false))
      || hasMultiCapSpan rest

/-- The three claim verdicts. -/
inductive Verdict where
  | supported
  | contradicted
  | unverifiable
  deriving Repr, DecidableEq

/-- Raw output of the NLI text-classification model (an external
capability): a label string and a confidence score. -/
structure NLIRaw where
  label : String
  score : ℚ

/-- The `label_map` of `ClaimNLIDetector._check_entailment`, with the
dictionary's `.get(…, "unverifiable")` default. -/
def labelMapVerdict (label : String) : Verdict :=
  if label = "entailment" ∨ label = "ENTAILMENT" then .supported
  else if label = "contradiction" ∨ label = "CONTRADICTION" then .contradicted
  else if label = "neutral" ∨ label = "NEUTRAL" then .unverifiable
  else .unverifiable

/-- Verdict record returned by `_check_entailment`. -/
structure VerdictOut where
  label : Verdict
  confidence : ℚ
  deriving Repr, DecidableEq

/-- `ClaimNLIDetector._check_entailment`: empty evidence is
unverifiable with confidence 1.0; otherwise the NLI model is run on
`"{evidence} </s></s> {claim}"`, confidence below 0.5 downgrades to
unverifiable, and otherwise the label map decides. -/
def checkEntailment (nli : String → NLIRaw) (claim evidence : String) :
    VerdictOut :=
  if evidence = "" then { label := .unverifiable, confidence := 1 }
  else
    let r := nli (evidence ++ " </s></s> " ++ claim)
    if r.score < 1/2 then { label := .unverifiable, confidence := pyRound4 r.score }
    else { label := labelMapVerdict r.label, confidence := pyRound4 r.score }

/-- `claim.lower().split()` / `chunk.lower().split()`. -/
def pyWords (s : String) : List String :=
  (splitWSAux (lowerL s.toList) []).map String.mk

/-- `len(claim_words & chunk_words)`: number of distinct chunk words
also occurring among the claim words. -/
def overlapCount (claimWords chunkWords : List String) : ℕ :=
  (chunkWords.dedup.filter (fun w => claimWords.contains w)).length

/-- `ClaimNLIDetector._find_evidence`: rank context chunks by lexical
overlap with the claim, join the top 3; with no overlapping chunk join
the whole context; with no context return `""`. -/
def findEvidence (claim : String) (context : List String) : String :=
  if context = [] then ""
  else
    let claimWords := pyWords claim
    let relevant := (context.map (fun ch => (overlapCount claimWords (pyWords ch), ch))).filter
      (fun p => 0 < p.1)
    if relevant = [] then String.intercalate " " context
    else
      let sorted := relevant.insertionSort (fun a b => b.1 ≤ a.1)
      String.intercalate " " ((sorted.take 3).map (fun p => p.2))

/-- Per-claim record in the output of `ClaimNLIDetector.detect`. -/
structure ClaimCheck where
  claim : String
  verdict : Verdict
  confidence : ℚ
  evidence : String
  deriving Repr, DecidableEq

/-- Output of `ClaimNLIDetector.detect` (the `num_supported`,
`num_contradicted`, `num_unverifiable` keys are absent from the
zero-claims dictionary, hence `Option`). -/
structure ClaimsOut where
  claims : List ClaimCheck
  support_rate : ℚ
  has_contradiction : Bool
  unsupported_claims : List ClaimCheck
  num_claims : ℕ
  num_supported : Option ℕ
  num_contradicted : Option ℕ
  num_unverifiable : Option ℕ
  deriving Repr

/-- `ClaimNLIDetector.detect` on the rule-based extraction path
(`use_llm_extraction = False`): extract claims; with none, return the
supported-by-default record; otherwise check each claim against its
retrieved evidence and aggregate. -/
def detectClaims (tok : String → List String) (nli : String → NLIRaw)
    (answer : String) (context : List String) : ClaimsOut :=
  let claims := extractClaimsRuleBased tok answer
  if claims = [] then
    { claims := [], support_rate := 1, has_contradiction := false,
      unsupported_claims := [], num_claims := 0,
      num_supported := none, num_contradicted := none, num_unverifiable := none }
  else
    let results := claims.map (fun c =>
      let ev := findEvidence c context
      let v := checkEntailment nli c ev
      ({ claim := c, verdict := v.label, confidence := v.confidence,
         evidence := ev } : ClaimCheck))
    let nSup := (results.filter (fun r => r.verdict == Verdict.supported)).length
    { claims := results,
      support_rate := pyRound4 ((nSup : ℚ) / results.length),
      has_contradiction := results.any (fun r => r.verdict == Verdict.contradicted),
      unsupported_claims := results.filter (fun r => !(r.verdict == Verdict.supported)),
      num_claims := results.length,
      num_supported := some nSup,
      num_contradicted :=
        some (results.filter (fun r => r.verdict == Verdict.contradicted)).length,
      num_unverifiable :=
        some (results.filter (fun r => r.verdict == Verdict.unverifiable)).length }

/-! ### meta_classifier.py : extract_features -/

/-- The citation character class `[\d,\s]` of the citation regex. -/
def citeClass (c : Char) : Bool := c.isDigit || c = ',' || c.isWhitespace

/-- Match of `\[[\d,\s]+\]` at the head of the list, returning the match
length. -/
def matchBracket (l : List Char) : Option ℕ :=
  match l with
  | '[' :: rest =>
    let run := rest.takeWhile citeClass
    if run.isEmpty then none
    else
      match rest.drop run.length with
      | ']' :: _ => some (run.length + 2)
      | _ => none
  | _ => none

/-- Match of `\(\d{4}\)` at the head of the list. -/
def matchParen (l : List Char) : Option ℕ :=
  match l with
  | '(' :: d1 :: d2 :: d3 :: d4 :: ')' :: _ =>
    if d1.isDigit && d2.isDigit && d3.isDigit && d4.isDigit then some 6 else none
  | _ => none

/-- Match of `\[[\d,\s]+\]|\(\d{4}\)` at the head of the list. -/
def matchCiteAt (l : List Char) : Option ℕ :=
  match matchBracket l with
  | some n => some n
  | none => matchParen l

/-- `len(re.findall(r'\[[\d,\s]+\]|\(\d{4}\)', answer))`: count of
non-overlapping, leftmost-first matches; `skip` counts characters still
inside the previous match. -/
def citeCountAux : ℕ → List Char → ℕ
  | _, [] => 0
  | Nat.succ k, _ :: rest => citeCountAux k rest
  | 0, c :: rest =>
    match matchCiteAt (c :: rest) with
    | some n => 1 + citeCountAux (n - 1) rest
    | none => citeCountAux 0 rest

/-- Citation count of an answer string. -/
def citeCount (l : List Char) : ℕ := citeCountAux 0 l

/-- The `"semantic_entropy"` sub-dictionary of the pipeline's combined
detection results, as read by `extract_features`. -/
structure EntropyData where
  semantic_entropy : ℚ
  num_clusters : ℚ
  consensus_strength : ℚ
  deriving Repr, DecidableEq

/-- The `"judge"` sub-dictionary. -/
structure JudgeData where
  score : ℚ
  deriving Repr, DecidableEq

/-- The `"claims"` sub-dictionary. -/
structure ClaimsData where
  support_rate : ℚ
  has_contradiction : Bool
  deriving Repr, DecidableEq

/-- The `"self_check"` sub-dictionary. -/
structure SelfCheckData where
  similarity_score : ℚ
  num_contradictions : ℚ
  deriving Repr, DecidableEq

/-- Combined detector outputs handed to
`MetaClassifier.extract_features`; a missing detector is `none` (the
source's `detection_results.get(key, {})`). -/
structure DetectionResults where
  semantic_entropy : Option EntropyData
  judge : Option JudgeData
  claims : Option ClaimsData
  self_check : Option SelfCheckData
  answer : String

/-- `MetaClassifier.extract_features`. -/
def extractFeatures (dr : DetectionResults) : Features :=
  let nWords : ℕ := countWords dr.answer.toList
  { semantic_entropy := (dr.semantic_entropy.map (fun e => e.semantic_entropy)).getD (1/2)
    num_clusters := min ((dr.semantic_entropy.map (fun e => e.num_clusters)).getD 1 / 5) 1
    consensus_strength := (dr.semantic_entropy.map (fun e => e.consensus_strength)).getD 1
    judge_score := (dr.judge.map (fun j => j.score)).getD (1/2)
    claim_support_rate := (dr.claims.map (fun c => c.support_rate)).getD 1
    has_contradiction := if (dr.claims.map (fun c => c.has_contradiction)).getD false then 1 else 0
    self_similarity := (dr.self_check.map (fun s => s.similarity_score)).getD 1
    num_contradictions := min ((dr.self_check.map (fun s => s.num_contradictions)).getD 0 / 3) 1
    answer_length := min ((nWords : ℚ) / 500) 1
    citation_density := min ((citeCount dr.answer.toList : ℚ) / ((max nWords 1 : ℕ) : ℚ)) 1 }

end LLMProxy

namespace LLMProxy

/-- The rank of the risk level as a single nested conditional in the
probability. -/
theorem levelRank_getRiskLevel (p : ℚ) :
    levelRank (getRiskLevel p) =
      if p < 2/10 then 0 else if p < 4/10 then 1 else if p < 6/10 then 2
      else if p < 8/10 then 3 else 4 := by
  unfold getRiskLevel levelRank
  split_ifs <;> simp_all

/-- C3: for every risk probability in [0,1] the risk level is safe below
0.2, low below 0.4, medium below 0.6, high below 0.8 and critical
otherwise; the action is show below 0.2, show_with_warning below 0.6 and
block_and_regenerate otherwise; each boundary value resolves to the
higher band; and the level rank is monotonically non-decreasing in the
probability. -/
theorem risk_level_action_bands (p q : ℚ) (hp0 : 0 ≤ p) (hp1 : p ≤ 1)
    (hq0 : 0 ≤ q) (hq1 : q ≤ 1) :
    (p < 2/10 → getRiskLevel p = "safe") ∧
    (2/10 ≤ p → p < 4/10 → getRiskLevel p = "low") ∧
    (4/10 ≤ p → p < 6/10 → getRiskLevel p = "medium") ∧
    (6/10 ≤ p → p < 8/10 → getRiskLevel p = "high") ∧
    (8/10 ≤ p → getRiskLevel p = "critical") ∧
    (p < 2/10 → getAction p = "show") ∧
    (2/10 ≤ p → p < 6/10 → getAction p = "show_with_warning") ∧
    (6/10 ≤ p → getAction p = "block_and_regenerate") ∧
    getRiskLevel (2/10) = "low" ∧ getRiskLevel (4/10) = "medium" ∧
    getRiskLevel (6/10) = "high" ∧ getRiskLevel (8/10) = "critical" ∧
    getAction (2/10) = "show_with_warning" ∧
    getAction (6/10) = "block_and_regenerate" ∧
    (p ≤ q → levelRank (getRiskLevel p) ≤ levelRank (getRiskLevel q)) := by
  refine ⟨fun h => ?_, fun h1 h2 => ?_, fun h1 h2 => ?_, fun h1 h2 => ?_,
    fun h => ?_, fun h => ?_, fun h1 h2 => ?_, fun h => ?_,
    by norm_num [getRiskLevel], by norm_num [getRiskLevel],
    by norm_num [getRiskLevel], by norm_num [getRiskLevel],
    by norm_num [getAction], by norm_num [getAction],
    fun hpq => ?_⟩
  · unfold getRiskLevel; split_ifs <;> first | rfl | (exfalso; linarith)
  · unfold getRiskLevel; split_ifs <;> first | rfl | (exfalso; linarith)
  · unfold getRiskLevel; split_ifs <;> first | rfl | (exfalso; linarith)
  · unfold getRiskLevel; split_ifs <;> first | rfl | (exfalso; linarith)
  · unfold getRiskLevel; split_ifs <;> first | rfl | (exfalso; linarith)
  · unfold getAction; split_ifs <;> first | rfl | (exfalso; linarith)
  · unfold getAction; split_ifs <;> first | rfl | (exfalso; linarith)
  · unfold getAction; split_ifs <;> first | rfl | (exfalso; linarith)
  · rw [levelRank_getRiskLevel, levelRank_getRiskLevel]
    split_ifs <;> try norm_num
    all_goals exfalso
    all_goals linarith

/-- Witness for `risk_level_action_bands` at p = 0, q = 1/2. -/
theorem risk_level_action_bands_witness :
    (0:ℚ) ≤ 0 ∧ (0:ℚ) ≤ 1 ∧ (0:ℚ) ≤ 1/2 ∧ (1/2:ℚ) ≤ 1 ∧
    getRiskLevel 0 = "safe" ∧
    levelRank (getRiskLevel 0) ≤ levelRank (getRiskLevel (1/2)) := by
  obtain ⟨a, -, -, -, -, -, -, -, -, -, -, -, -, -, m⟩ :=
    risk_level_action_bands 0 (1/2) (by norm_num) (by norm_num) (by norm_num)
      (by norm_num)
  exact ⟨by norm_num, by norm_num, by norm_num, by norm_num,
    a (by norm_num), m (by norm_num)⟩

/-- C10: in heuristic mode (the freshly initialized classifier), the
prediction — risk probability, risk level, action and explanation —
depends only on the six features semantic_entropy, judge_score,
claim_support_rate, has_contradiction, self_similarity and
num_contradictions. -/
theorem heuristic_predict_six_features (f g : Features)
    (h1 : f.semantic_entropy = g.semantic_entropy)
    (h2 : f.judge_score = g.judge_score)
    (h3 : f.claim_support_rate = g.claim_support_rate)
    (h4 : f.has_contradiction = g.has_contradiction)
    (h5 : f.self_similarity = g.self_similarity)
    (h6 : f.num_contradictions = g.num_contradictions) :
    predictMC initMC f = predictMC initMC g := by
  simp only [predictMC, initMC, buildX, heuristicScore, explainPrediction,
    h1, h2, h3, h4, h5, h6]

/-- Witness for `heuristic_predict_six_features`: two feature dicts that
agree on the six scoring features but differ in num_clusters,
consensus_strength, answer_length and citation_density get the same
prediction. -/
theorem heuristic_predict_six_features_witness :
    predictMC initMC
      { semantic_entropy := 7/10, num_clusters := 0, consensus_strength := 0,
        judge_score := 2/5, claim_support_rate := 1/2, has_contradiction := 1,
        self_similarity := 3/5, num_contradictions := 1/3, answer_length := 0,
        citation_density := 0 } =
    predictMC initMC
      { semantic_entropy := 7/10, num_clusters := 1, consensus_strength := 1,
        judge_score := 2/5, claim_support_rate := 1/2, has_contradiction := 1,
        self_similarity := 3/5, num_contradictions := 1/3, answer_length := 1,
        citation_density := 1 } :=
  heuristic_predict_six_features _ _ rfl rfl rfl rfl rfl rfl

/-- A feature name outside the ten-name schema is not a key of the
feature dictionary. -/
theorem featLookup_eq_none (f : Features) (n : String) (h : n ∉ featureNames) :
    featLookup f n = none := by
  simp only [featureNames, List.mem_cons, List.not_mem_nil, or_false, not_or] at h
  obtain ⟨h1, h2, h3, h4, h5, h6, h7, h8, h9, h10⟩ := h
  unfold featLookup
  rw [if_neg h1, if_neg h2, if_neg h3, if_neg h4, if_neg h5, if_neg h6,
    if_neg h7, if_neg h8, if_neg h9, if_neg h10]

/-- C2 counterexample: loading a stored model whose feature-name list
(`["bogus_feature"]`) does not match the classifier's current ten-name
schema completes without any error — the mismatched names are installed,
heuristic mode is cleared — and a subsequent `predict` silently produces
a score built from the 0.5 defaults (here 0.5 itself, although every
actual feature value is 0). -/
theorem load_model_no_schema_check_cex :
    (loadModel initMC { calibrator := fun xs => xs.headD 0,
                        feature_names := ["bogus_feature"] }).feature_names
      = ["bogus_feature"] ∧
    (loadModel initMC { calibrator := fun xs => xs.headD 0,
                        feature_names := ["bogus_feature"] }).use_heuristic
      = false ∧
    (predictMC (loadModel initMC { calibrator := fun xs => xs.headD 0,
                                   feature_names := ["bogus_feature"] })
       { semantic_entropy := 0, num_clusters := 0, consensus_strength := 0,
         judge_score := 0, claim_support_rate := 0, has_contradiction := 0,
         self_similarity := 0, num_contradictions := 0, answer_length := 0,
         citation_density := 0 }).risk_probability = 1/2 := by
  refine ⟨rfl, rfl, ?_⟩
  have hf : ∀ f : Features, featLookup f "bogus_feature" = none := fun f =>
    featLookup_eq_none f _ (by simp [featureNames])
  simp only [predictMC, loadModel, initMC, buildX, List.map, hf, Option.getD]
  norm_num [pyRound4]

/-- C2 amended: `load_model` performs no feature-schema validation — it
always completes, overwriting the classifier's feature names with the
stored list; when the stored schema is disjoint from the current
ten-name feature vector, every feature value is silently replaced by the
0.5 default, so the predicted risk probability, level and action are
constant in the actual features. -/
theorem load_model_adopts_stored_schema (st : MCState) (m : StoredModel)
    (hmis : ∀ n ∈ m.feature_names, n ∉ featureNames) :
    (loadModel st m).feature_names = m.feature_names ∧
    (loadModel st m).use_heuristic = false ∧
    ∀ f g : Features,
      (predictMC (loadModel st m) f).risk_probability =
        (predictMC (loadModel st m) g).risk_probability ∧
      (predictMC (loadModel st m) f).risk_level =
        (predictMC (loadModel st m) g).risk_level ∧
      (predictMC (loadModel st m) f).action =
        (predictMC (loadModel st m) g).action := by
  refine ⟨rfl, rfl, fun f g => ?_⟩
  have hX : buildX (loadModel st m) f = buildX (loadModel st m) g := by
    unfold buildX
    apply List.map_congr_left
    intro n hn
    rw [featLookup_eq_none f n (hmis n hn), featLookup_eq_none g n (hmis n hn)]
  simp only [predictMC, hX]
  exact ⟨rfl, rfl, rfl⟩

/-- Witness for `load_model_adopts_stored_schema`: the stored name
`"bogus_feature"` is outside the schema, and two entirely different
feature dicts yield the same risk probability after such a load. -/
theorem load_model_adopts_stored_schema_witness :
    (∀ n ∈ ["bogus_feature"], n ∉ featureNames) ∧
    (predictMC (loadModel initMC { calibrator := fun xs => xs.headD 0,
                                   feature_names := ["bogus_feature"] })
       { semantic_entropy := 0, num_clusters := 0, consensus_strength := 0,
         judge_score := 0, claim_support_rate := 0, has_contradiction := 0,
         self_similarity := 0, num_contradictions := 0, answer_length := 0,
         citation_density := 0 }).risk_probability =
    (predictMC (loadModel initMC { calibrator := fun xs => xs.headD 0,
                                   feature_names := ["bogus_feature"] })
       { semantic_entropy := 1, num_clusters := 1, consensus_strength := 1,
         judge_score := 1, claim_support_rate := 1, has_contradiction := 1,
         self_similarity := 1, num_contradictions := 1, answer_length := 1,
         citation_density := 1 }).risk_probability := by
  have hmem : ∀ n ∈ ["bogus_feature"], n ∉ featureNames := by
    simp [featureNames]
  have h := load_model_adopts_stored_schema initMC
    { calibrator := fun xs => xs.headD 0, feature_names := ["bogus_feature"] }
    hmem
  exact ⟨hmem, (h.2.2 _ _).1⟩

/-- C1: the semantic_entropy feature is NOT normalized to [0,1] —
`extract_features` passes the upstream entropy value straight through,
and the upstream entropy of three singleton clusters is `log 3 > 1`
(rounded to 4 decimals by the detector: 1.0986 = 5493/5000), so the
feature dictionary of such detection results carries a value above 1,
contradicting both the spec and the function's own "normalized values"
docstring. -/
theorem extract_features_entropy_exceeds_one :
    calcEntropy [0, 1, 2] = Real.log 3 ∧
    (1:ℝ) < Real.log 3 ∧
    (∀ (ed : EntropyData) (j : Option JudgeData) (c : Option ClaimsData)
       (sc : Option SelfCheckData) (ans : String),
       (extractFeatures ⟨some ed, j, c, sc, ans⟩).semantic_entropy
         = ed.semantic_entropy) ∧
    (extractFeatures ⟨some ⟨5493/5000, 3, 3/5⟩, none, none, none,
       ""⟩).semantic_entropy = 5493/5000 ∧
    (1 : ℚ) < 5493/5000 := by
  refine ⟨?_, ?_, fun ed j c sc ans => rfl, by norm_num [extractFeatures],
    by norm_num⟩
  · have hfil : ([0,1,2] : List ℤ).filter (fun c => decide (c ≠ -1)) = [0,1,2] := by
      decide
    have hded : ([0,1,2] : List ℤ).dedup = [0,1,2] := by decide
    have hc0 : ([0,1,2] : List ℤ).count 0 = 1 := by decide
    have hc1 : ([0,1,2] : List ℤ).count 1 = 1 := by decide
    have hc2 : ([0,1,2] : List ℤ).count 2 = 1 := by decide
    have hlog : Real.log ((1:ℝ)/3) = -Real.log 3 := by rw [one_div, Real.log_inv]
    unfold calcEntropy
    simp only [hfil, hded, hc0, hc1, hc2, List.map_cons, List.map_nil,
      List.sum_cons, List.sum_nil, List.length_cons, List.length_nil]
    norm_num [hlog]
    simp
    ring
  · have h : Real.exp 1 < 3 := lt_trans Real.exp_one_lt_d9 (by norm_num)
    exact (Real.lt_log_iff_exp_lt (by norm_num)).2 h

/-- C4: whenever claim extraction yields zero claims — whatever the
sentence tokenizer, the NLI model, the answer and the context (including
the empty context) — the detector returns support_rate exactly 1.0,
has_contradiction false, and an empty claims list. -/
theorem detect_zero_claims_supported (tok : String → List String)
    (nli : String → NLIRaw) (answer : String) (context : List String)
    (h : extractClaimsRuleBased tok answer = []) :
    detectClaims tok nli answer context =
      { claims := [], support_rate := 1, has_contradiction := false,
        unsupported_claims := [], num_claims := 0,
        num_supported := none, num_contradicted := none,
        num_unverifiable := none } := by
  simp [detectClaims, h]

/-- Witness for `detect_zero_claims_supported`: the one-sentence answer
"Hi." is below the 4-word minimum, so no claim is extracted, and the
detector returns the supported-by-default record on empty context. -/
theorem detect_zero_claims_supported_witness :
    extractClaimsRuleBased (fun s => [s]) "Hi." = [] ∧
    detectClaims (fun s => [s]) (fun _ => { label := "neutral", score := 1 })
        "Hi." []
      = { claims := [], support_rate := 1, has_contradiction := false,
          unsupported_claims := [], num_claims := 0, num_supported := none,
          num_contradicted := none, num_unverifiable := none } := by
  have hext : extractClaimsRuleBased (fun s => [s]) "Hi." = [] := by decide
  exact ⟨hext, detect_zero_claims_supported _ _ _ _ hext⟩

/-- C5: the entailment check yields unverifiable with confidence 1.0 on
empty evidence; on non-empty evidence, confidence below 0.5 forces
unverifiable regardless of label, and otherwise the labels entailment,
contradiction and neutral map to supported, contradicted and
unverifiable respectively. -/
theorem check_entailment_mapping (nli : String → NLIRaw)
    (claim evidence : String) :
    (evidence = "" →
      checkEntailment nli claim evidence
        = { label := Verdict.unverifiable, confidence := 1 }) ∧
    (evidence ≠ "" →
      ((nli (evidence ++ " </s></s> " ++ claim)).score < 1/2 →
        (checkEntailment nli claim evidence).label = Verdict.unverifiable) ∧
      (1/2 ≤ (nli (evidence ++ " </s></s> " ++ claim)).score →
        ((nli (evidence ++ " </s></s> " ++ claim)).label = "entailment" →
          (checkEntailment nli claim evidence).label = Verdict.supported) ∧
        ((nli (evidence ++ " </s></s> " ++ claim)).label = "contradiction" →
          (checkEntailment nli claim evidence).label = Verdict.contradicted) ∧
        ((nli (evidence ++ " </s></s> " ++ claim)).label = "neutral" →
          (checkEntailment nli claim evidence).label = Verdict.unverifiable))) := by
  constructor
  · intro he
    simp [checkEntailment, he]
  · intro he
    constructor
    · intro hs
      have hs' : (nli (evidence ++ " </s></s> " ++ claim)).score < 2⁻¹ := by
        rw [← one_div]; exact hs
      simp [checkEntailment, he, hs']
    · intro hs
      have hns : ¬ (nli (evidence ++ " </s></s> " ++ claim)).score < 2⁻¹ := by
        rw [← one_div]; exact not_lt.2 hs
      refine ⟨fun hl => ?_, fun hl => ?_, fun hl => ?_⟩ <;>
        simp [checkEntailment, he, hns, labelMapVerdict, hl]

/-- Witness for `check_entailment_mapping`: a fixed NLI model answering
entailment at confidence 0.9 gives unverifiable on empty evidence and
supported on evidence "e". -/
theorem check_entailment_mapping_witness :
    checkEntailment (fun _ => { label := "entailment", score := 9/10 }) "c" ""
      = { label := Verdict.unverifiable, confidence := 1 } ∧
    (checkEntailment (fun _ => { label := "entailment", score := 9/10 })
        "c" "e").label = Verdict.supported := by
  have h0 := check_entailment_mapping
    (fun _ => { label := "entailment", score := 9/10 }) "c" ""
  have h := check_entailment_mapping
    (fun _ => { label := "entailment", score := 9/10 }) "c" "e"
  refine ⟨h0.1 rfl, ?_⟩
  exact ((h.2 (by decide)).2 (by norm_num)).1 rfl

/-- C6 counterexample: the sentence "The cat sat quietly on the mat."
has no capitalized multi-word span (its only capitalized text is the
single word "The"), no digit and no month/year token, yet the rule-based
filter retains it — the entity regex `[A-Z][a-z]+(?:\s+[A-Z][a-z]+)*`
already matches a single capitalized word. -/
theorem is_factual_claim_single_cap_cex :
    isFactualClaim "The cat sat quietly on the mat." = true ∧
    hasMultiCapSpan "The cat sat quietly on the mat.".toList = false ∧
    hasNumber "The cat sat quietly on the mat.".toList = false ∧
    hasDate "The cat sat quietly on the mat.".toList = false ∧
    endsWithQmark "The cat sat quietly on the mat.".toList = false ∧
    countWords "The cat sat quietly on the mat.".toList = 7 ∧
    containsMeta "The cat sat quietly on the mat.".toList = false := by decide

/-- C6 amended: a sentence is retained as a claim iff it does not end
with a question mark, has at least 4 words, contains no meta/discourse
phrase, and contains at least one of: a capitalized word (an uppercase
letter immediately followed by a lowercase letter — a single capitalized
word suffices), a digit, or a month/year token. -/
theorem is_factual_claim_characterization (s : String) :
    isFactualClaim s = true ↔
      (endsWithQmark s.toList = false ∧
       4 ≤ countWords s.toList ∧
       containsMeta s.toList = false ∧
       (hasEntity s.toList = true ∨ hasNumber s.toList = true ∨
        hasDate s.toList = true)) := by
  simp only [isFactualClaim]
  split_ifs with h1 h2 h3
  all_goals simp only [String.toList] at *
  · simp [h1]
  · have : ¬ 4 ≤ countWords s.data := by omega
    simp [this]
  · simp [h3]
  · have e1 : endsWithQmark s.data = false := by
      cases hE : endsWithQmark s.data
      · rfl
      · exact absurd hE h1
    have e2 : 4 ≤ countWords s.data := by omega
    have e3 : containsMeta s.data = false := by
      cases hM : containsMeta s.data
      · rfl
      · exact absurd hM h3
    simp [e1, e2, e3, Bool.or_eq_true]
    tauto

/-- Filtering out the noise label is idempotent. -/
theorem filter_noise_idem (l : List ℤ) :
    (l.filter (fun x => decide (x ≠ -1))).filter (fun x => decide (x ≠ -1))
      = l.filter (fun x => decide (x ≠ -1)) := by
  rw [List.filter_filter]
  simp

/-- The entropy computation is invariant under removing noise points
first: noise contributes neither counts nor total. -/
theorem calcEntropy_filter_noise (l : List ℤ) :
    calcEntropy l = calcEntropy (l.filter (fun x => decide (x ≠ -1))) := by
  by_cases h1 : l = []
  · subst h1; simp [calcEntropy]
  · simp [calcEntropy, h1, filter_noise_idem]
    split_ifs <;> rfl

/-- Filtering noise from a constant list keeps it or empties it. -/
theorem filter_noise_replicate (m : ℕ) (d : ℤ) :
    (List.replicate m d).filter (fun x => decide (x ≠ -1))
      = if d = -1 then [] else List.replicate m d := by
  induction m with
  | zero => simp
  | succ k ih =>
    by_cases hd : d = -1
    · subst hd; simp_all [List.replicate_succ, List.filter_cons]
    · simp_all [List.replicate_succ, List.filter_cons]

/-- The entropy of a constant cluster assignment is zero. -/
theorem calcEntropy_replicate (n : ℕ) (d : ℤ) :
    calcEntropy (List.replicate n d) = 0 := by
  cases n with
  | zero => simp [calcEntropy]
  | succ k =>
    by_cases hd : d = -1
    · subst hd
      have h2 : (List.replicate (k+1) (-1 : ℤ)).filter (fun x => decide (x ≠ -1))
          = [] := by simp [filter_noise_replicate]
      simp [calcEntropy, h2]
    · have hne : List.replicate (k+1) d ≠ [] := by simp
      have hfil : (List.replicate (k+1) d).filter (fun x => decide (x ≠ -1))
          = List.replicate (k+1) d := by simp [filter_noise_replicate, hd]
      have hded : (List.replicate (k+1) d).dedup = [d] :=
        List.replicate_dedup (by omega)
      have hcnt : (List.replicate (k+1) d).count d = k + 1 := by
        simp [List.count_replicate]
      have hlen : (List.replicate (k+1) d).length = k + 1 := by simp
      simp only [calcEntropy, if_neg hne, hfil, hded, hcnt, hlen,
        List.map_cons, List.map_nil, List.sum_cons, List.sum_nil]
      have : ((k:ℝ) + 1) / ((k:ℝ) + 1) = 1 := by
        apply div_self
        positivity
      push_cast
      rw [this, Real.log_one]
      simp

/-- The consensus strength of a constant cluster assignment is one. -/
theorem consensusStrength_replicate (n : ℕ) (hn : 0 < n) (d : ℤ) :
    consensusStrength (List.replicate n d) = 1 := by
  have hne : List.replicate n d ≠ [] := by
    intro hcon
    have := congrArg List.length hcon
    simp at this
    omega
  have hded : (List.replicate n d).dedup = [d] :=
    List.replicate_dedup (by omega)
  have hcnt : (List.replicate n d).count d = n := by simp [List.count_replicate]
  simp only [consensusStrength, maxClusterSize, if_neg hne, hded, hcnt,
    List.map_cons, List.map_nil, List.foldr, List.length_replicate]
  rw [Nat.max_zero]
  have hnz : ((n : ℚ)) ≠ 0 := by exact_mod_cast hn.ne'
  rw [div_self hnz]

/-- C7: the entropy computation drops noise points from counts and
normalization; an all-noise labelling is converted to a single cluster;
and every constant (single-cluster) assignment — as produced for
embedding-identical samples — has entropy 0 and consensus strength
1.0. -/
theorem entropy_noise_excluded_identical_zero (clusters : List ℤ) (n : ℕ)
    (hn : 0 < n) (c : ℤ) :
    calcEntropy clusters = calcEntropy (clusters.filter (fun x => x ≠ -1)) ∧
    postprocessClusters (List.replicate n (-1)) = List.replicate n 0 ∧
    calcEntropy (postprocessClusters (List.replicate n c)) = 0 ∧
    consensusStrength (postprocessClusters (List.replicate n c)) = 1 := by
  have hpost : ∀ d : ℤ, postprocessClusters (List.replicate n d)
      = List.replicate n (if d = -1 then 0 else d) := by
    intro d
    by_cases hd : d = -1
    · subst hd
      simp [postprocessClusters, List.all_eq_true, List.mem_replicate]
    · have heq : postprocessClusters (List.replicate n d) = List.replicate n d := by
        unfold postprocessClusters
        rw [if_neg]
        intro hall
        rw [List.all_eq_true] at hall
        have hmem : d ∈ List.replicate n d := by
          rw [List.mem_replicate]
          exact ⟨by omega, rfl⟩
        have hd1 := hall d hmem
        simp at hd1
        exact hd hd1
      rw [heq, if_neg hd]
  refine ⟨calcEntropy_filter_noise clusters, ?_, ?_, ?_⟩
  · rw [hpost (-1)]
    simp
  · rw [hpost c]
    exact calcEntropy_replicate n _
  · rw [hpost c]
    exact consensusStrength_replicate n hn _

/-- Witness for `entropy_noise_excluded_identical_zero` at
clusters = [-1, 0], n = 3, c = -1. -/
theorem entropy_noise_excluded_identical_zero_witness :
    0 < 3 ∧
    (calcEntropy [-1, 0] = calcEntropy ([-1, 0].filter (fun x => x ≠ -1)) ∧
     postprocessClusters (List.replicate 3 (-1)) = List.replicate 3 0 ∧
     calcEntropy (postprocessClusters (List.replicate 3 (-1))) = 0 ∧
     consensusStrength (postprocessClusters (List.replicate 3 (-1))) = 1) :=
  ⟨by norm_num, entropy_noise_excluded_identical_zero [-1, 0] 3 (by norm_num) (-1)⟩

/-- C8 counterexample: on the assignment [-1, -1, -1, 0, 0] (three
noise points, one cluster of two) the code reports consensus_strength
3/5 — the noise label itself is the largest "cluster" — while the spec's
noise-excluded reading gives 2/5; num_clusters is 1 as specified. -/
theorem consensus_includes_noise_cex :
    consensusStrength [-1, -1, -1, 0, 0] = 3/5 ∧
    specConsensusStrength [-1, -1, -1, 0, 0] = 2/5 ∧
    consensusStrength [-1, -1, -1, 0, 0]
      ≠ specConsensusStrength [-1, -1, -1, 0, 0] ∧
    numClustersOf [-1, -1, -1, 0, 0] = 1 := by
  have h1 : maxClusterSize [-1, -1, -1, 0, 0] = 3 := by decide
  have h2 : specMaxNonNoiseSize [-1, -1, -1, 0, 0] = 2 := by decide
  have h3 : numClustersOf [-1, -1, -1, 0, 0] = 1 := by decide
  have hne : ([-1, -1, -1, 0, 0] : List ℤ) ≠ [] := by simp
  refine ⟨?_, ?_, ?_, h3⟩ <;>
    norm_num [consensusStrength, specConsensusStrength, h1, h2, hne]

/-- Every element of a list of naturals is bounded by the fold of max
over it. -/
theorem le_foldr_max (L : List ℕ) (x : ℕ) (hx : x ∈ L) :
    x ≤ L.foldr max 0 := by
  induction L with
  | nil => cases hx
  | cons a t ih =>
    rcases List.mem_cons.1 hx with h | h
    · subst h
      exact le_max_left _ _
    · exact le_trans (ih h) (le_max_right _ _)

/-- The fold of max over a non-empty list of naturals is attained by
one of its elements. -/
theorem foldr_max_mem (L : List ℕ) (hL : L ≠ []) : L.foldr max 0 ∈ L := by
  induction L with
  | nil => exact absurd rfl hL
  | cons a t ih =>
    cases t with
    | nil => simp
    | cons b u =>
      rcases le_total (List.foldr max 0 (b :: u)) a with hc | hc
      · rw [List.foldr_cons, max_eq_left hc]
        exact List.mem_cons_self a _
      · rw [List.foldr_cons, max_eq_right hc]
        exact List.mem_cons_of_mem _ (ih (by simp))

/-- C8 amended: for every non-empty assignment, consensus_strength
equals the count of SOME label (noise included) divided by the number of
samples, and is an upper bound on every label's relative frequency —
i.e. it is the size of the largest label group, the noise label
counting as a group; num_clusters is the number of distinct non-noise
labels, as the claim states. -/
theorem consensus_strength_characterization (clusters : List ℤ)
    (h : clusters ≠ []) :
    (∃ c ∈ clusters, consensusStrength clusters
        = (clusters.count c : ℚ) / clusters.length) ∧
    (∀ c : ℤ, (clusters.count c : ℚ) / clusters.length
        ≤ consensusStrength clusters) ∧
    numClustersOf clusters = (clusters.toFinset.erase (-1)).card := by
  have hlen : (0 : ℚ) < clusters.length := by
    have := List.length_pos.2 h
    exact_mod_cast this
  have hded : clusters.dedup ≠ [] := by
    intro hcon
    rw [List.dedup_eq_nil] at hcon
    exact h hcon
  have hmap : clusters.dedup.map (fun c => clusters.count c) ≠ [] := by
    simpa using hded
  refine ⟨?_, ?_, ?_⟩
  · have hmem := foldr_max_mem _ hmap
    rcases List.mem_map.1 hmem with ⟨c, hc, hcount⟩
    refine ⟨c, List.mem_dedup.1 hc, ?_⟩
    rw [consensusStrength, if_neg h, maxClusterSize, hcount]
  · intro c
    by_cases hc : c ∈ clusters
    · have hcd : clusters.count c ∈ clusters.dedup.map
          (fun c => clusters.count c) :=
        List.mem_map.2 ⟨c, List.mem_dedup.2 hc, rfl⟩
      have hle := le_foldr_max _ _ hcd
      rw [consensusStrength, if_neg h, maxClusterSize]
      rw [div_le_div_iff_of_pos_right hlen]
      exact_mod_cast hle
    · rw [List.count_eq_zero.2 hc]
      rw [consensusStrength, if_neg h]
      push_cast
      rw [zero_div]
      apply div_nonneg _ (le_of_lt hlen)
      positivity
  · rw [numClustersOf]
    by_cases hm : (-1 : ℤ) ∈ clusters
    · rw [if_pos hm,
        Finset.card_erase_of_mem (List.mem_toFinset.2 hm),
        List.card_toFinset]
    · rw [if_neg hm,
        Finset.erase_eq_of_not_mem (fun hcon => hm (List.mem_toFinset.1 hcon)),
        List.card_toFinset]
      omega

/-- Witness for `consensus_strength_characterization` at the assignment
[-1, -1, -1, 0, 0]. -/
theorem consensus_strength_characterization_witness :
    ([-1, -1, -1, 0, 0] : List ℤ) ≠ [] ∧
    ((∃ c ∈ ([-1, -1, -1, 0, 0] : List ℤ), consensusStrength [-1, -1, -1, 0, 0]
        = (([-1, -1, -1, 0, 0] : List ℤ).count c : ℚ) / (5 : ℕ)) ∧
     (∀ c : ℤ, (([-1, -1, -1, 0, 0] : List ℤ).count c : ℚ) / (5 : ℕ)
        ≤ consensusStrength [-1, -1, -1, 0, 0]) ∧
     numClustersOf [-1, -1, -1, 0, 0]
        = (([-1, -1, -1, 0, 0] : List ℤ).toFinset.erase (-1)).card) :=
  ⟨by simp, consensus_strength_characterization [-1, -1, -1, 0, 0] (by simp)⟩

/-- C9 counterexample: with entropy 0.5 — inside the ambiguous band —
but initial_k = max_k = 8 (the thorough preset's sample count against
the default cap), adaptive_sampling requests 0 additional samples, so
lying in the band does not imply a positive resampling request. -/
theorem adaptive_sampling_at_cap_cex :
    adaptiveSampling (1/2) 8 8 = 0 ∧
    (4/10 : ℚ) ≤ 1/2 ∧ (1/2 : ℚ) ≤ 6/10 := by
  refine ⟨?_, by norm_num, by norm_num⟩
  norm_num [adaptiveSampling]

/-- C9 amended: outside the closed band [0.4, 0.6] the request is 0; in
the band it is min(max_k − initial_k, 5), which is positive exactly
when initial_k < max_k; and whenever the request is positive the total
initial_k + request never exceeds max_k. -/
theorem adaptive_sampling_characterization (e : ℚ) (initialK maxK : ℤ) :
    ((e < 4/10 ∨ 6/10 < e) → adaptiveSampling e initialK maxK = 0) ∧
    (4/10 ≤ e → e ≤ 6/10 →
      adaptiveSampling e initialK maxK = min (maxK - initialK) 5 ∧
      (0 < adaptiveSampling e initialK maxK ↔ initialK < maxK)) ∧
    (0 < adaptiveSampling e initialK maxK →
      initialK + adaptiveSampling e initialK maxK ≤ maxK) := by
  unfold adaptiveSampling
  split_ifs with hc
  · refine ⟨fun _ => rfl, fun h1 h2 => ?_, fun h0 => absurd h0 (by norm_num)⟩
    rcases hc with hc | hc
    · exact absurd h1 (not_le.2 hc)
    · exact absurd h2 (not_le.2 hc)
  · push_neg at hc
    refine ⟨fun hcon => ?_, fun _ _ => ⟨rfl, ?_⟩, fun _ => ?_⟩
    · rcases hcon with hcon | hcon
      · exact absurd hcon (not_lt.2 hc.1)
      · exact absurd hcon (not_lt.2 hc.2)
    · omega
    · omega

/-- Witness for `adaptive_sampling_characterization` at entropy 0.5,
initial_k = 3, max_k = 8. -/
theorem adaptive_sampling_characterization_witness :
    (4/10 : ℚ) ≤ 1/2 ∧ (1/2 : ℚ) ≤ 6/10 ∧
    adaptiveSampling (1/2) 3 8 = 5 ∧
    (3 : ℤ) + adaptiveSampling (1/2) 3 8 ≤ 8 := by
  obtain ⟨-, hb, hc⟩ := adaptive_sampling_characterization (1/2) 3 8
  obtain ⟨heq, -⟩ := hb (by norm_num) (by norm_num)
  have h5 : adaptiveSampling (1/2) 3 8 = 5 := by rw [heq]; decide
  refine ⟨by norm_num, by norm_num, h5, hc ?_⟩
  rw [h5]
  norm_num

end LLMProxy
